import Mathlib

/-
  Verification of the redex reference resolver (ResolveRefsPass.cpp) and
  the IRTypeChecker interface (IRTypeChecker.h), as a shallow embedding.

  External collaborators (class hierarchy lookup, method/field resolution,
  accessibility, min-SDK surface, per-instruction type inference) are
  modelled as oracle functions bundled in a `World`; the functions under
  verification are translated from the C++ source, branch for branch.
-/

namespace Redex

/-- A DEX type, identified by its descriptor string (e.g. "LFoo;"). -/
structure DexType where
  tname : String
deriving DecidableEq

/-- A loaded class definition: its type, and the flags the resolver reads.
Publicity is mutable state (set_public) and therefore lives in `World.pub`,
not here. -/
structure DexClass where
  ty : DexType
  isExternal : Bool
  isInterface : Bool
deriving DecidableEq

/-- A method reference (class, name, proto). redex interns references
uniquely, so C++ pointer equality is structural equality here; a reference
that is a definition carries the definition flags. -/
structure DexMethodRef where
  cls : DexType
  mname : String
  proto : Nat
  isDef : Bool
  isExternal : Bool
  isFinal : Bool
deriving DecidableEq

/-- A field reference (class, name, type) with definition flags. -/
structure DexFieldRef where
  cls : DexType
  fname : String
  fty : DexType
  isDef : Bool
  isExternal : Bool
deriving DecidableEq

/-- show(DexMethodRef): the fully qualified name used for the
excluded-externals match. -/
def showMethod (m : DexMethodRef) : String :=
  m.cls.tname ++ "." ++ m.mname ++ ":" ++ toString m.proto

/-- The opcodes the resolver's switch distinguishes; `const_op` stands for
every opcode that falls into the default branch. -/
inductive IROpcode where
  | invoke_virtual | invoke_super | invoke_interface | invoke_static | invoke_direct
  | sget | sget_wide | sget_object | sget_boolean | sget_byte | sget_char | sget_short
  | sput | sput_wide | sput_object | sput_boolean | sput_byte | sput_char | sput_short
  | iget | iget_wide | iget_object | iget_boolean | iget_byte | iget_char | iget_short
  | iput | iput_wide | iput_object | iput_boolean | iput_byte | iput_char | iput_short
  | return_object
  | const_op
deriving DecidableEq

def IROpcode.isInvokeSuper : IROpcode → Bool
  | .invoke_super => true
  | _ => false

def IROpcode.isInvokeVirtual : IROpcode → Bool
  | .invoke_virtual => true
  | _ => false

def IROpcode.isInvokeInterface : IROpcode → Bool
  | .invoke_interface => true
  | _ => false

def IROpcode.isReturnObject : IROpcode → Bool
  | .return_object => true
  | _ => false

/-- An IR instruction: opcode, optional method operand, optional field
operand, source registers (src 0 is the receiver for invokes).
`get_method`/`get_field` on an instruction lacking the operand is undefined
behaviour in C++; the embedding surfaces it as a crash (`none` result). -/
structure IRInstruction where
  opcode : IROpcode
  mref : Option DexMethodRef
  fref : Option DexFieldRef
  srcs : List Nat
deriving DecidableEq

inductive MethodSearch where
  | Direct | Static | Virtual | Super | Interface | Any
deriving DecidableEq

inductive FieldSearch where
  | Static | Instance | Any
deriving DecidableEq

/-- opcode_to_search: the dispatch kind of an invoke opcode. Call sites
only apply it to invoke opcodes; the default arm is unreachable there. -/
def opcodeToSearch : IROpcode → MethodSearch
  | .invoke_direct => .Direct
  | .invoke_static => .Static
  | .invoke_virtual => .Virtual
  | .invoke_super => .Super
  | .invoke_interface => .Interface
  | _ => .Any

/-- A method with (optional) code, the unit the pass walks over. -/
structure RMethod where
  ref : DexMethodRef
  code : Option (List IRInstruction)
deriving DecidableEq

/-- The read-only collaborators plus the one mutable bit (class publicity).
  - typeClass: type_class(t)
  - pub: is_public on a class (keyed by its type); set_public updates it
  - resolveMethod: resolve_method(ref, search, caller)
  - resolveMethodRefVirt: resolve_method_ref(cls, name, proto, Virtual)
  - resolveMethodOnCls: resolve_method(cls*, name, proto, Virtual)
  - resolveField: resolve_field(ref, search)
  - canAccess: type::can_access(caller, callee)
  - minSdkHasMethod: m_min_sdk_api->has_method
  - inferredRecvType: env.get_dex_type(reg) at an instruction
  - inferredRtype: env.get_type_domain(reg) at a return-object
  - isSupportLib: api::is_support_lib_type
  - joinType: least common supertype (DexTypeDomain join)
  - rtypeSpecializable: the specializability test of SpecializeRtype -/
structure World where
  typeClass : DexType → Option DexClass
  pub : DexType → Bool
  resolveMethod : DexMethodRef → MethodSearch → DexMethodRef → Option DexMethodRef
  resolveMethodRefVirt : DexClass → String → Nat → Option DexMethodRef
  resolveMethodOnCls : Option DexClass → String → Nat → Option DexMethodRef
  resolveField : DexFieldRef → FieldSearch → Option DexFieldRef
  canAccess : DexMethodRef → DexMethodRef → Bool
  minSdkHasMethod : DexMethodRef → Bool
  inferredRecvType : IRInstruction → Nat → Option DexType
  inferredRtype : IRInstruction → Nat → Option DexType
  isSupportLib : DexType → Bool
  joinType : DexType → DexType → DexType
  rtypeSpecializable : DexMethodRef → DexType → Bool

/-- set_public(cls): the only cross-method mutation. -/
def setPublic (w : World) (t : DexType) : World :=
  { w with pub := fun u => if u = t then true else w.pub u }

/-- The counters of impl::RefStats, plus the rtype candidates list. -/
structure RefStats where
  num_mref_resolved : Nat
  num_fref_resolved : Nat
  num_invoke_virtual_refined : Nat
  num_invoke_interface_replaced : Nat
  num_invoke_super_removed : Nat
  rtype_candidates : List (DexMethodRef × DexType)
deriving DecidableEq

def RefStats.empty : RefStats :=
  ⟨0, 0, 0, 0, 0, []⟩

def RefStats.add (a b : RefStats) : RefStats :=
  ⟨a.num_mref_resolved + b.num_mref_resolved,
   a.num_fref_resolved + b.num_fref_resolved,
   a.num_invoke_virtual_refined + b.num_invoke_virtual_refined,
   a.num_invoke_interface_replaced + b.num_invoke_interface_replaced,
   a.num_invoke_super_removed + b.num_invoke_super_removed,
   a.rtype_candidates ++ b.rtype_candidates⟩

def RefStats.incrMref (s : RefStats) : RefStats :=
  { s with num_mref_resolved := s.num_mref_resolved + 1 }

def RefStats.incrFref (s : RefStats) : RefStats :=
  { s with num_fref_resolved := s.num_fref_resolved + 1 }

def RefStats.incrVirtualRefined (s : RefStats) : RefStats :=
  { s with num_invoke_virtual_refined := s.num_invoke_virtual_refined + 1 }

def RefStats.incrInterfaceReplaced (s : RefStats) : RefStats :=
  { s with num_invoke_interface_replaced := s.num_invoke_interface_replaced + 1 }

def RefStats.incrSuperRemoved (s : RefStats) : RefStats :=
  { s with num_invoke_super_removed := s.num_invoke_super_removed + 1 }

/-- impl::try_desuperify (ResolveRefsPass.cpp lines 101-129). A `none`
result models a crash (get_method on an instruction with no method ref). -/
def try_desuperify (w : World) (caller : DexMethodRef)
    (insn : IRInstruction) (stats : RefStats) :
    Option (IRInstruction × RefStats) :=
  if insn.opcode.isInvokeSuper = false then some (insn, stats)
  else
    match w.typeClass caller.cls with
    | none => some (insn, stats)
    | some cls =>
      match insn.mref with
      | none => none
      | some m =>
        match w.typeClass m.cls with
        | none => some (insn, stats)
        | some calleeCls =>
          if calleeCls.isInterface then some (insn, stats)
          else
            match w.resolveMethodRefVirt cls m.mname m.proto with
            | none => some (insn, stats)
            | some callee =>
              if callee.isExternal || !callee.isFinal then some (insn, stats)
              else some ({ insn with opcode := .invoke_virtual },
                         stats.incrSuperRemoved)

/-- Structural prefix test on character lists (the semantics of
boost::starts_with). -/
def listIsPfx : List Char → List Char → Bool
  | [], _ => true
  | _ :: _, [] => false
  | a :: as, b :: bs => if a = b then listIsPfx as bs else false

/-- boost::starts_with on strings. -/
def strStartsWith (s pfx : String) : Bool :=
  listIsPfx pfx.data s.data

/-- impl::is_excluded_external (lines 131-140): true when the name starts
with any configured excluded-externals entry. -/
def is_excluded_external (excluded : List String) (s : String) : Bool :=
  excluded.any (fun e => strStartsWith s e)

/-- The resolver pass options (bindConfig fields of ResolveRefsPass). -/
structure Options where
  refineToExternal : Bool
  desuperifyOpt : Bool
  specializeRtypeOpt : Bool
  excludedExternals : List String

/-- impl::get_inferred_method_def (lines 142-176). The isSupportLib
argument is passed by the caller but unused in the body, as in the source. -/
def get_inferred_method_def (w : World) (caller : DexMethodRef)
    (excluded : List String) (isSupportLib : Bool)
    (callee : DexMethodRef) (inferredType : DexType) :
    Option DexMethodRef :=
  let inferredCls := w.typeClass inferredType
  match w.resolveMethodOnCls inferredCls callee.mname callee.proto with
  | none => none
  | some resolved =>
    if resolved.isDef = false then none
    else
      let resolvedCls := w.typeClass resolved.cls
      let isExt := match resolvedCls with
        | some c => c.isExternal
        | none => false
      if isExt && is_excluded_external excluded (showMethod resolved) then none
      else if !(w.canAccess caller resolved) then none
      else some resolved

/-- impl::resolve_field_refs (lines 80-99). `none` models a crash: either
get_field on a non-field instruction or the always_assert(cls != nullptr)
after a successful rewrite. -/
def resolve_field_refs (w : World) (insn : IRInstruction)
    (fieldSearch : FieldSearch) (stats : RefStats) :
    Option (World × IRInstruction × RefStats) :=
  match insn.fref with
  | none => none
  | some fref =>
    if fref.isDef then some (w, insn, stats)
    else
      match w.resolveField fref fieldSearch with
      | none => some (w, insn, stats)
      | some realRef =>
        if realRef.isExternal = true ∨ realRef = fref then some (w, insn, stats)
        else
          let insn1 := { insn with fref := some realRef }
          let stats1 := stats.incrFref
          match w.typeClass realRef.cls with
          | none => none
          | some cls =>
            if !(w.pub cls.ty) then
              if cls.isExternal then some (w, insn1, stats1)
              else some (setPublic w cls.ty, insn1, stats1)
            else some (w, insn1, stats1)

/-- ResolveRefsPass::resolve_method_refs (lines 182-212), one instruction.
`none` models a crash: the leading always_assert(insn->has_method()), or
the null dereference in redex_assert(cls != nullptr || !cls->is_external())
when type_class returns null past the external gates (the condition
short-circuits to evaluating cls->is_external() on null). -/
def resolve_method_refs (w : World) (opts : Options) (caller : DexMethodRef)
    (insn : IRInstruction) (stats : RefStats) :
    Option (World × IRInstruction × RefStats) :=
  match insn.mref with
  | none => none
  | some mref =>
    match w.resolveMethod mref (opcodeToSearch insn.opcode) caller with
    | none => some (w, insn, stats)
    | some mdef =>
      if mdef = mref then some (w, insn, stats)
      else if !opts.refineToExternal && mdef.isExternal then
        some (w, insn, stats)
      else if mdef.isExternal && !(w.minSdkHasMethod mdef) then
        some (w, insn, stats)
      else
        match w.typeClass mdef.cls with
        | some cls =>
          if cls.isExternal && !(w.pub cls.ty) then some (w, insn, stats)
          else
            let w1 := if !(w.pub cls.ty) then setPublic w cls.ty else w
            some (w1, { insn with mref := some mdef }, stats.incrMref)
        | none => none

/-- The per-instruction dispatch of ResolveRefsPass::resolve_refs
(lines 220-264): the switch over opcodes. invoke-direct is not a case of
the switch and falls through to the default branch. -/
def resolve_refs_step (w : World) (opts : Options) (caller : DexMethodRef)
    (insn : IRInstruction) (stats : RefStats) :
    Option (World × IRInstruction × RefStats) :=
  match insn.opcode with
  | .invoke_virtual | .invoke_super | .invoke_interface | .invoke_static =>
    resolve_method_refs w opts caller insn stats
  | .sget | .sget_wide | .sget_object | .sget_boolean
  | .sget_byte | .sget_char | .sget_short
  | .sput | .sput_wide | .sput_object | .sput_boolean
  | .sput_byte | .sput_char | .sput_short =>
    resolve_field_refs w insn .Static stats
  | .iget | .iget_wide | .iget_object | .iget_boolean
  | .iget_byte | .iget_char | .iget_short
  | .iput | .iput_wide | .iput_object | .iput_boolean
  | .iput_byte | .iput_char | .iput_short =>
    resolve_field_refs w insn .Instance stats
  | _ => some (w, insn, stats)

/-- The instruction loop of resolve_refs, threading the world, the
rewritten instructions and the stats. -/
def resolve_refs_loop (opts : Options) (caller : DexMethodRef) :
    World → List IRInstruction → RefStats →
    Option (World × List IRInstruction × RefStats)
  | w, [], stats => some (w, [], stats)
  | w, insn :: rest, stats =>
    match resolve_refs_step w opts caller insn stats with
    | none => none
    | some (w1, insn1, stats1) =>
      match resolve_refs_loop opts caller w1 rest stats1 with
      | none => none
      | some (w2, rest1, stats2) => some (w2, insn1 :: rest1, stats2)

/-- ResolveRefsPass::resolve_refs (lines 214-267). -/
def resolve_refs (w : World) (opts : Options) (m : RMethod) :
    Option (World × RMethod × RefStats) :=
  match m.code with
  | none => some (w, m, RefStats.empty)
  | some insns =>
    match resolve_refs_loop opts m.ref w insns RefStats.empty with
    | none => none
    | some (w1, insns1, stats) =>
      some (w1, { m with code := some insns1 }, stats)

/-- Modelled from the spec: RtypeCandidates::collect_inferred_rtype
(SpecializeRtype.cpp is not under src/). Per the spec it accumulates, per
method, the join of the inferred concrete types of return-object sources;
the accumulator `none` is the bottom domain. -/
def collectInferredRtype (w : World) (inferred : Option DexType)
    (dom : Option DexType) : Option DexType :=
  match dom, inferred with
  | none, i => i
  | some t, none => some t
  | some t, some i => some (w.joinType t i)

/-- Modelled from the spec: RtypeCandidates::collect_specializable_rtype
(SpecializeRtype.cpp is not under src/). A candidate is recorded only when
the accumulated domain is non-bottom, strictly more specific than the
declared return type and compatible across overriders (the oracle
`rtypeSpecializable`). -/
def collectSpecializableRtype (w : World) (method : DexMethodRef)
    (dom : Option DexType) : List (DexMethodRef × DexType) :=
  match dom with
  | none => []
  | some t => if w.rtypeSpecializable method t then [(method, t)] else []

/-- The loop body of ResolveRefsPass::refine_virtual_callsites
(lines 286-352), one instruction. `none` models a crash (get_method or
src(0) on a malformed instruction). -/
def refine_callsite_step (w : World) (opts : Options) (method : DexMethodRef)
    (desuperify specializeRtype : Bool)
    (insn : IRInstruction) (stats : RefStats) (dom : Option DexType) :
    Option (IRInstruction × RefStats × Option DexType) :=
  match (if desuperify then try_desuperify w method insn stats
         else some (insn, stats)) with
  | none => none
  | some (insn1, stats1) =>
    let opc := insn1.opcode
    if specializeRtype && opc.isReturnObject then
      match insn1.srcs.head? with
      | none => none
      | some r =>
        some (insn1, stats1, collectInferredRtype w (w.inferredRtype insn1 r) dom)
    else if !(opc.isInvokeVirtual || opc.isInvokeInterface) then
      some (insn1, stats1, dom)
    else
      match insn1.mref with
      | none => none
      | some mref =>
        match w.resolveMethod mref (opcodeToSearch opc) method with
        | none => some (insn1, stats1, dom)
        | some callee =>
          match insn1.srcs.head? with
          | none => none
          | some thisReg =>
            match w.inferredRecvType insn1 thisReg with
            | none => some (insn1, stats1, dom)
            | some dexType =>
              match get_inferred_method_def w method opts.excludedExternals
                  (w.isSupportLib method.cls) callee dexType with
              | none => some (insn1, stats1, dom)
              | some defMeth =>
                match w.typeClass defMeth.cls with
                | none => some (insn1, stats1, dom)
                | some defCls =>
                  if mref = defMeth then some (insn1, stats1, dom)
                  else if !opts.refineToExternal && defCls.isExternal then
                    some (insn1, stats1, dom)
                  else if defCls.isExternal && !(w.minSdkHasMethod defMeth) then
                    some (insn1, stats1, dom)
                  else
                    let insn2 := { insn1 with mref := some defMeth }
                    if opc.isInvokeInterface && !defCls.isInterface then
                      some ({ insn2 with opcode := .invoke_virtual },
                            stats1.incrInterfaceReplaced, dom)
                    else
                      some (insn2, stats1.incrVirtualRefined, dom)

/-- The instruction loop of refine_virtual_callsites. -/
def refine_loop (w : World) (opts : Options) (method : DexMethodRef)
    (desuperify specializeRtype : Bool) :
    List IRInstruction → RefStats → Option DexType →
    Option (List IRInstruction × RefStats × Option DexType)
  | [], stats, dom => some ([], stats, dom)
  | insn :: rest, stats, dom =>
    match refine_callsite_step w opts method desuperify specializeRtype
        insn stats dom with
    | none => none
    | some (insn1, stats1, dom1) =>
      match refine_loop w opts method desuperify specializeRtype
          rest stats1 dom1 with
      | none => none
      | some (rest1, stats2, dom2) => some (insn1 :: rest1, stats2, dom2)

/-- ResolveRefsPass::refine_virtual_callsites (lines 269-356): runs the
instruction loop with an empty stats and a bottom rtype domain, then
appends the specializable-rtype candidate of the accumulated domain. -/
def refine_virtual_callsites (w : World) (opts : Options) (m : RMethod)
    (desuperify specializeRtype : Bool) :
    Option (RMethod × RefStats) :=
  match m.code with
  | none => some (m, RefStats.empty)
  | some insns =>
    match refine_loop w opts m.ref desuperify specializeRtype
        insns RefStats.empty none with
    | none => none
    | some (insns1, stats, dom) =>
      some ({ m with code := some insns1 },
            { stats with rtype_candidates :=
                stats.rtype_candidates ++ collectSpecializableRtype w m.ref dom })

/-- The first parallel walk of run_pass: per method, resolve_refs then
refine_virtual_callsites with the configured desuperify/specialize flags,
reducing the per-method stats with RefStats.add. -/
def run_pass_phase1 (opts : Options) :
    World → List RMethod → Option (World × List RMethod × RefStats)
  | w, [] => some (w, [], RefStats.empty)
  | w, m :: rest =>
    match resolve_refs w opts m with
    | none => none
    | some (w1, m1, stats1) =>
      match refine_virtual_callsites w1 opts m1
          opts.desuperifyOpt opts.specializeRtypeOpt with
      | none => none
      | some (m2, stats2) =>
        match run_pass_phase1 opts w1 rest with
        | none => none
        | some (w2, rest1, statsR) =>
          some (w2, m2 :: rest1, (stats1.add stats2).add statsR)

/-- The second parallel walk of run_pass: refine_virtual_callsites with
desuperify = false and specialize_rtype = false on every method. -/
def run_pass_phase2 (w : World) (opts : Options) :
    List RMethod → Option (List RMethod × RefStats)
  | [] => some ([], RefStats.empty)
  | m :: rest =>
    match refine_virtual_callsites w opts m false false with
    | none => none
    | some (m1, stats1) =>
      match run_pass_phase2 w opts rest with
      | none => none
      | some (rest1, statsR) => some (m1 :: rest1, stats1.add statsR)

/-- ResolveRefsPass::run_pass (lines 358-388). `spapply` stands for
RtypeSpecialization::specialize_rtypes (SpecializeRtype.cpp is not under
src/): it rewrites signatures across the scope from the collected
candidates. The result carries the first-phase world, methods and stats,
and, when specialize_rtype is set, the second-phase methods and stats. -/
def run_pass (w : World) (opts : Options)
    (spapply : List (DexMethodRef × DexType) → World → List RMethod →
               World × List RMethod)
    (scope : List RMethod) :
    Option (World × List RMethod × RefStats ×
            Option (List RMethod × RefStats)) :=
  match run_pass_phase1 opts w scope with
  | none => none
  | some (w1, scope1, stats1) =>
    if opts.specializeRtypeOpt = false then some (w1, scope1, stats1, none)
    else
      match run_pass_phase2 (spapply stats1.rtype_candidates w1 scope1).1
          opts (spapply stats1.rtype_candidates w1 scope1).2 with
      | none => none
      | some (scope2, stats2) =>
        some (w1, scope1, stats1, some (scope2, stats2))

/-- The state of an IRTypeChecker (IRTypeChecker.h): the method's
deobfuscated name and the fields m_complete, m_good, m_what. An assertion
failure (always_assert_log) is modelled as an Except.error carrying the
assertion's message. -/
structure IRTypeChecker where
  dexMethodName : String
  m_complete : Bool
  m_good : Bool
  m_what : String
deriving DecidableEq

namespace IRTypeChecker

/-- IRTypeChecker::check_completion (IRTypeChecker.h lines 111-115):
asserts m_complete with a message naming the method. -/
def check_completion (c : IRTypeChecker) : Except String Unit :=
  if c.m_complete then Except.ok ()
  else Except.error
    ("The type checker did not run on method " ++ c.dexMethodName ++ ".\n")

/-- IRTypeChecker::good (lines 76-79). -/
def good (c : IRTypeChecker) : Except String Bool :=
  (check_completion c).map (fun _ => c.m_good)

/-- IRTypeChecker::fail (lines 81-84): the negation of good. -/
def fail (c : IRTypeChecker) : Except String Bool :=
  (check_completion c).map (fun _ => !c.m_good)

/-- IRTypeChecker::what (lines 86-93). -/
def what (c : IRTypeChecker) : Except String String :=
  (check_completion c).map (fun _ => c.m_what)

/-- Modelled from the spec: IRTypeChecker::run (IRTypeChecker.cpp is not
under src/; only the header is). Per the spec run is idempotent and
transitions the checker to complete: on success m_good is set and m_what
is exactly "OK"; on failure m_what is the description of the first type
error encountered. `firstError` abstracts the sweep's outcome. -/
def run (c : IRTypeChecker) (firstError : Option String) : IRTypeChecker :=
  if c.m_complete then c
  else
    match firstError with
    | none => { c with m_complete := true, m_good := true, m_what := "OK" }
    | some msg => { c with m_complete := true, m_good := false, m_what := msg }

end IRTypeChecker

/- Concrete fixtures used by the closed evaluation theorems. -/

def tyCaller : DexType := ⟨"LCaller;"⟩

def tyBase : DexType := ⟨"LBase;"⟩

def tyDerived : DexType := ⟨"LDerived;"⟩

def tyAndroid : DexType := ⟨"Landroid/X;"⟩

def clsCaller : DexClass := ⟨tyCaller, false, false⟩

def clsBase : DexClass := ⟨tyBase, false, false⟩

def clsDerived : DexClass := ⟨tyDerived, false, false⟩

def clsAndroid : DexClass := ⟨tyAndroid, true, false⟩

def callerM : DexMethodRef := ⟨tyCaller, "caller", 0, true, false, false⟩

/-- A world where every lookup fails and every flag is benign; the
fixtures override the pieces they need. -/
def wBase : World where
  typeClass := fun _ => none
  pub := fun _ => true
  resolveMethod := fun _ _ _ => none
  resolveMethodRefVirt := fun _ _ _ => none
  resolveMethodOnCls := fun _ _ _ => none
  resolveField := fun _ _ => none
  canAccess := fun _ _ => true
  minSdkHasMethod := fun _ => false
  inferredRecvType := fun _ _ => none
  inferredRtype := fun _ _ => none
  isSupportLib := fun _ => false
  joinType := fun t _ => t
  rtypeSpecializable := fun _ _ => false

def optsBase : Options :=
  ⟨false, true, false, []⟩

/-- The conditions under which try_desuperify fires, read off the claim:
caller class defined, callee owner defined and not an interface, virtual
resolution from the caller class non-null, non-external and final. -/
def desuperifyConditions (w : World) (caller m : DexMethodRef) : Prop :=
  ∃ cls calleeCls callee,
    w.typeClass caller.cls = some cls ∧
    w.typeClass m.cls = some calleeCls ∧
    calleeCls.isInterface = false ∧
    w.resolveMethodRefVirt cls m.mname m.proto = some callee ∧
    callee.isExternal = false ∧ callee.isFinal = true

/-- C3: for an invoke-super instruction, try_desuperify rewrites the
opcode to invoke-virtual exactly when the caller's class has a definition,
the callee's owning class exists and is not an interface, and the callee
resolved by virtual search is non-null, non-external and final; the
rewrite increments num_invoke_super_removed by one, and in every other
case instruction and stats are unchanged. -/
theorem c3_try_desuperify_iff
    (w : World) (caller : DexMethodRef) (insn : IRInstruction)
    (stats : RefStats) (m : DexMethodRef)
    (hop : insn.opcode = .invoke_super) (hm : insn.mref = some m) :
    (desuperifyConditions w caller m →
      try_desuperify w caller insn stats =
        some ({ insn with opcode := .invoke_virtual },
              stats.incrSuperRemoved) ∧
      stats.incrSuperRemoved.num_invoke_super_removed =
        stats.num_invoke_super_removed + 1) ∧
    (¬ desuperifyConditions w caller m →
      try_desuperify w caller insn stats = some (insn, stats)) := by
  constructor
  · rintro ⟨cls, ccls, callee, h1, h2, h3, h4, h5, h6⟩
    refine ⟨?_, rfl⟩
    simp [try_desuperify, hop, IROpcode.isInvokeSuper, hm, h1, h2, h3, h4,
      h5, h6]
  · intro hnc
    rcases hcls : w.typeClass caller.cls with _ | cls
    · simp [try_desuperify, hop, IROpcode.isInvokeSuper, hm, hcls]
    · rcases hccls : w.typeClass m.cls with _ | ccls
      · simp [try_desuperify, hop, IROpcode.isInvokeSuper, hm, hcls, hccls]
      · cases hint : ccls.isInterface
        · rcases hres : w.resolveMethodRefVirt cls m.mname m.proto
            with _ | callee
          · simp [try_desuperify, hop, IROpcode.isInvokeSuper, hm, hcls,
              hccls, hint, hres]
          · cases hext : callee.isExternal
            · cases hfin : callee.isFinal
              · simp [try_desuperify, hop, IROpcode.isInvokeSuper, hm,
                  hcls, hccls, hint, hres, hext, hfin]
              · exact absurd
                  ⟨cls, ccls, callee, hcls, hccls, hint, hres, hext, hfin⟩
                  hnc
            · simp [try_desuperify, hop, IROpcode.isInvokeSuper, hm, hcls,
                hccls, hint, hres, hext]
        · simp [try_desuperify, hop, IROpcode.isInvokeSuper, hm, hcls,
            hccls, hint]

def mrefSuper : DexMethodRef := ⟨tyBase, "m", 0, false, false, false⟩

def mdefFinal : DexMethodRef := ⟨tyBase, "m", 0, true, false, true⟩

def insnSuper : IRInstruction := ⟨.invoke_super, some mrefSuper, none, [0]⟩

def wC3 : World :=
  { wBase with
    typeClass := fun t =>
      if t = tyCaller then some clsCaller
      else if t = tyBase then some clsBase
      else none
    resolveMethodRefVirt := fun _ _ _ => some mdefFinal }

/-- Witness for C3: a concrete final callee gets desuperified. -/
theorem c3_witness :
    try_desuperify wC3 callerM insnSuper RefStats.empty =
      some ({ insnSuper with opcode := .invoke_virtual },
            RefStats.empty.incrSuperRemoved) :=
  ((c3_try_desuperify_iff wC3 callerM insnSuper RefStats.empty mrefSuper
      rfl rfl).1
    ⟨clsCaller, clsBase, mdefFinal, by decide, by decide, by decide,
     by decide, by decide, by decide⟩).1

/-- Helper: try_desuperify leaves any non-invoke-super instruction
untouched. -/
theorem try_desuperify_skip (w : World) (caller : DexMethodRef)
    (insn : IRInstruction) (stats : RefStats)
    (h : insn.opcode.isInvokeSuper = false) :
    try_desuperify w caller insn stats = some (insn, stats) := by
  simp [try_desuperify, h]

/-- C1: when the resolved definition is external, the rewrite requires
refine_to_external together with min-SDK membership, in both
resolve_method_refs and the refinement loop of refine_virtual_callsites;
when either is missing the instruction (and the stats) are unchanged. -/
theorem c1_external_min_sdk_gate :
    (∀ (w : World) (opts : Options) (caller : DexMethodRef)
       (insn : IRInstruction) (stats : RefStats) (mref mdef : DexMethodRef),
       insn.mref = some mref →
       w.resolveMethod mref (opcodeToSearch insn.opcode) caller = some mdef →
       mdef ≠ mref →
       mdef.isExternal = true →
       (opts.refineToExternal = false ∨ w.minSdkHasMethod mdef = false) →
       resolve_method_refs w opts caller insn stats = some (w, insn, stats)) ∧
    (∀ (w : World) (opts : Options) (method : DexMethodRef)
       (desuperify specializeRtype : Bool)
       (insn : IRInstruction) (stats : RefStats) (dom : Option DexType)
       (mref callee defMeth : DexMethodRef) (thisReg : Nat)
       (recvTy : DexType) (defCls : DexClass),
       (insn.opcode = .invoke_virtual ∨ insn.opcode = .invoke_interface) →
       insn.mref = some mref →
       w.resolveMethod mref (opcodeToSearch insn.opcode) method = some callee →
       insn.srcs.head? = some thisReg →
       w.inferredRecvType insn thisReg = some recvTy →
       get_inferred_method_def w method opts.excludedExternals
         (w.isSupportLib method.cls) callee recvTy = some defMeth →
       w.typeClass defMeth.cls = some defCls →
       defCls.isExternal = true →
       (opts.refineToExternal = false ∨ w.minSdkHasMethod defMeth = false) →
       refine_callsite_step w opts method desuperify specializeRtype
         insn stats dom = some (insn, stats, dom)) := by
  constructor
  · intro w opts caller insn stats mref mdef hm hres hne hext hgate
    rcases hgate with hF | hS
    · simp [resolve_method_refs, hm, hres, hne, hF, hext]
    · by_cases hR : opts.refineToExternal
      · simp [resolve_method_refs, hm, hres, hne, hR, hext, hS]
      · simp [resolve_method_refs, hm, hres, hne, hR, hext]
  · intro w opts method desuperify specializeRtype insn stats dom mref
      callee defMeth thisReg recvTy defCls hop hm hres hthis hrecv hgimd
      hcls hext hgate
    have hsup : insn.opcode.isInvokeSuper = false := by
      rcases hop with h | h <;> simp [h, IROpcode.isInvokeSuper]
    have hdesup :
        (if desuperify then try_desuperify w method insn stats
         else some (insn, stats)) = some (insn, stats) := by
      cases desuperify
      · rfl
      · simpa using try_desuperify_skip w method insn stats hsup
    have hro : insn.opcode.isReturnObject = false := by
      rcases hop with h | h <;> simp [h, IROpcode.isReturnObject]
    have hinv :
        (insn.opcode.isInvokeVirtual || insn.opcode.isInvokeInterface) =
          true := by
      rcases hop with h | h <;>
        simp [h, IROpcode.isInvokeVirtual, IROpcode.isInvokeInterface]
    by_cases heq : mref = defMeth
    · subst heq
      simp [refine_callsite_step, hdesup, hro, hinv, hm, hres, hthis,
        hrecv, hgimd, hcls]
    · rcases hgate with hF | hS
      · simp [refine_callsite_step, hdesup, hro, hinv, hm, hres, hthis,
          hrecv, hgimd, hcls, heq, hF, hext]
      · by_cases hR : opts.refineToExternal
        · simp [refine_callsite_step, hdesup, hro, hinv, hm, hres, hthis,
            hrecv, hgimd, hcls, heq, hR, hext, hS]
        · simp [refine_callsite_step, hdesup, hro, hinv, hm, hres, hthis,
            hrecv, hgimd, hcls, heq, hR, hext]

def mrefVirt : DexMethodRef := ⟨tyBase, "v", 1, false, false, false⟩

def mdefAndroid : DexMethodRef := ⟨tyAndroid, "v", 1, true, true, false⟩

def insnVirt : IRInstruction := ⟨.invoke_virtual, some mrefVirt, none, [0]⟩

def wC1 : World :=
  { wBase with
    typeClass := fun t =>
      if t = tyAndroid then some clsAndroid else none
    resolveMethod := fun r _ _ =>
      if r = mrefVirt then some mdefAndroid else none
    resolveMethodOnCls := fun _ _ _ => some mdefAndroid
    inferredRecvType := fun _ _ => some tyDerived }

/-- Witness for C1: with refine_to_external disabled, a concrete external
target is rejected by both gates. -/
theorem c1_witness :
    resolve_method_refs wC1 optsBase callerM insnVirt RefStats.empty =
      some (wC1, insnVirt, RefStats.empty) ∧
    refine_callsite_step wC1 optsBase callerM true false insnVirt
      RefStats.empty none = some (insnVirt, RefStats.empty, none) :=
  ⟨c1_external_min_sdk_gate.1 wC1 optsBase callerM insnVirt RefStats.empty
     mrefVirt mdefAndroid rfl (by decide) (by decide) (by decide)
     (Or.inl rfl),
   c1_external_min_sdk_gate.2 wC1 optsBase callerM true false insnVirt
     RefStats.empty none mrefVirt mdefAndroid mdefAndroid 0 tyDerived
     clsAndroid (Or.inl rfl) rfl (by decide) rfl rfl (by decide)
     (by decide) (by decide) (Or.inl rfl)⟩

/-- The bail-out conditions of the virtual-call refinement loop, as the
claim lists them: null resolution, uninferred receiver type, a bailing
get_inferred_method_def (which covers excluded externals and
inaccessibility), a missing owning class, an unchanged reference, or a
failing external/min-SDK gate. -/
def refineBailConditions (w : World) (opts : Options)
    (method : DexMethodRef) (insn : IRInstruction)
    (mref : DexMethodRef) (thisReg : Nat) : Prop :=
  w.resolveMethod mref (opcodeToSearch insn.opcode) method = none ∨
  ∃ callee,
    w.resolveMethod mref (opcodeToSearch insn.opcode) method = some callee ∧
    (w.inferredRecvType insn thisReg = none ∨
     ∃ recvTy,
       w.inferredRecvType insn thisReg = some recvTy ∧
       (get_inferred_method_def w method opts.excludedExternals
          (w.isSupportLib method.cls) callee recvTy = none ∨
        ∃ defMeth,
          get_inferred_method_def w method opts.excludedExternals
            (w.isSupportLib method.cls) callee recvTy = some defMeth ∧
          (w.typeClass defMeth.cls = none ∨
           ∃ defCls,
             w.typeClass defMeth.cls = some defCls ∧
             (mref = defMeth ∨
              (defCls.isExternal = true ∧
               (opts.refineToExternal = false ∨
                w.minSdkHasMethod defMeth = false))))))

/-- C2: any failing rewrite condition leaves the examined instruction
completely unchanged and produces no error, only counters: a field
reference that is already a definition is skipped; every bail-out of the
refinement loop returns the instruction, stats and domain untouched; and
get_inferred_method_def returns none for excluded external targets and
for targets inaccessible from the caller. -/
theorem c2_conservative_failure :
    (∀ (w : World) (insn : IRInstruction) (fieldSearch : FieldSearch)
       (stats : RefStats) (fref : DexFieldRef),
       insn.fref = some fref → fref.isDef = true →
       resolve_field_refs w insn fieldSearch stats =
         some (w, insn, stats)) ∧
    (∀ (w : World) (opts : Options) (method : DexMethodRef)
       (desuperify specializeRtype : Bool) (insn : IRInstruction)
       (stats : RefStats) (dom : Option DexType)
       (mref : DexMethodRef) (thisReg : Nat),
       (insn.opcode = .invoke_virtual ∨ insn.opcode = .invoke_interface) →
       insn.mref = some mref →
       insn.srcs.head? = some thisReg →
       refineBailConditions w opts method insn mref thisReg →
       refine_callsite_step w opts method desuperify specializeRtype
         insn stats dom = some (insn, stats, dom)) ∧
    (∀ (w : World) (caller : DexMethodRef) (excl : List String)
       (isl : Bool) (callee : DexMethodRef) (ty : DexType)
       (resolved : DexMethodRef) (rc : DexClass),
       w.resolveMethodOnCls (w.typeClass ty) callee.mname callee.proto =
         some resolved →
       w.typeClass resolved.cls = some rc →
       rc.isExternal = true →
       is_excluded_external excl (showMethod resolved) = true →
       get_inferred_method_def w caller excl isl callee ty = none) ∧
    (∀ (w : World) (caller : DexMethodRef) (excl : List String)
       (isl : Bool) (callee : DexMethodRef) (ty : DexType)
       (resolved : DexMethodRef),
       w.resolveMethodOnCls (w.typeClass ty) callee.mname callee.proto =
         some resolved →
       w.canAccess caller resolved = false →
       get_inferred_method_def w caller excl isl callee ty = none) := by
  refine ⟨?_, ?_, ?_, ?_⟩
  · intro w insn fieldSearch stats fref hf hdef
    simp [resolve_field_refs, hf, hdef]
  · intro w opts method desuperify specializeRtype insn stats dom mref
      thisReg hop hm hthis hbail
    have hsup : insn.opcode.isInvokeSuper = false := by
      rcases hop with h | h <;> simp [h, IROpcode.isInvokeSuper]
    have hdesup :
        (if desuperify then try_desuperify w method insn stats
         else some (insn, stats)) = some (insn, stats) := by
      cases desuperify
      · rfl
      · simpa using try_desuperify_skip w method insn stats hsup
    have hro : insn.opcode.isReturnObject = false := by
      rcases hop with h | h <;> simp [h, IROpcode.isReturnObject]
    have hinv :
        (insn.opcode.isInvokeVirtual || insn.opcode.isInvokeInterface) =
          true := by
      rcases hop with h | h <;>
        simp [h, IROpcode.isInvokeVirtual, IROpcode.isInvokeInterface]
    rcases hbail with hres | ⟨callee, hres, hrest⟩
    · simp [refine_callsite_step, hdesup, hro, hinv, hm, hres]
    · rcases hrest with hrecv | ⟨recvTy, hrecv, hrest⟩
      · simp [refine_callsite_step, hdesup, hro, hinv, hm, hres, hthis,
          hrecv]
      · rcases hrest with hgimd | ⟨defMeth, hgimd, hrest⟩
        · simp [refine_callsite_step, hdesup, hro, hinv, hm, hres, hthis,
            hrecv, hgimd]
        · rcases hrest with hcls | ⟨defCls, hcls, hrest⟩
          · simp [refine_callsite_step, hdesup, hro, hinv, hm, hres,
              hthis, hrecv, hgimd, hcls]
          · rcases hrest with heq | ⟨hext, hgate⟩
            · subst heq
              simp [refine_callsite_step, hdesup, hro, hinv, hm, hres,
                hthis, hrecv, hgimd, hcls]
            · by_cases heq : mref = defMeth
              · subst heq
                simp [refine_callsite_step, hdesup, hro, hinv, hm, hres,
                  hthis, hrecv, hgimd, hcls]
              · rcases hgate with hF | hS
                · simp [refine_callsite_step, hdesup, hro, hinv, hm,
                    hres, hthis, hrecv, hgimd, hcls, heq, hF, hext]
                · by_cases hR : opts.refineToExternal
                  · simp [refine_callsite_step, hdesup, hro, hinv, hm,
                      hres, hthis, hrecv, hgimd, hcls, heq, hR, hext, hS]
                  · simp [refine_callsite_step, hdesup, hro, hinv, hm,
                      hres, hthis, hrecv, hgimd, hcls, heq, hR, hext]
  · intro w caller excl isl callee ty resolved rc hres hcls hext hexcl
    cases hdef : resolved.isDef
    · simp [get_inferred_method_def, hres, hdef]
    · simp [get_inferred_method_def, hres, hdef, hcls, hext, hexcl]
  · intro w caller excl isl callee ty resolved hres hacc
    cases hdef : resolved.isDef
    · simp [get_inferred_method_def, hres, hdef]
    · cases hexcl : ((match w.typeClass resolved.cls with
          | some c => c.isExternal
          | none => false) &&
          is_excluded_external excl (showMethod resolved))
      · simp [get_inferred_method_def, hres, hdef, hexcl, hacc]
      · simp [get_inferred_method_def, hres, hdef, hexcl]

def fieldDef : DexFieldRef := ⟨tyBase, "f", tyBase, true, false⟩

def insnSgetDef : IRInstruction := ⟨.sget, none, some fieldDef, []⟩

def mdefAndroidW : DexMethodRef := ⟨tyAndroid, "w", 2, true, true, false⟩

def wC2 : World :=
  { wBase with
    typeClass := fun t =>
      if t = tyAndroid then some clsAndroid else none
    resolveMethodOnCls := fun _ _ _ => some mdefAndroidW }

def wC2acc : World :=
  { wBase with
    resolveMethodOnCls := fun _ _ _ => some mdefAndroidW
    canAccess := fun _ _ => false }

/-- Witness for C2: a definition field ref is skipped; a failed resolution
leaves a virtual call site unchanged; an excluded external and an
inaccessible target make get_inferred_method_def bail. -/
theorem c2_witness :
    resolve_field_refs wBase insnSgetDef FieldSearch.Static RefStats.empty =
      some (wBase, insnSgetDef, RefStats.empty) ∧
    refine_callsite_step wBase optsBase callerM true false insnVirt
      RefStats.empty none = some (insnVirt, RefStats.empty, none) ∧
    get_inferred_method_def wC2 callerM ["Landroid/"] false mrefVirt
      tyDerived = none ∧
    get_inferred_method_def wC2acc callerM [] false mrefVirt tyDerived =
      none :=
  ⟨c2_conservative_failure.1 wBase insnSgetDef FieldSearch.Static
     RefStats.empty fieldDef rfl rfl,
   c2_conservative_failure.2.1 wBase optsBase callerM true false insnVirt
     RefStats.empty none mrefVirt 0 (Or.inl rfl) rfl rfl (Or.inl rfl),
   c2_conservative_failure.2.2.1 wC2 callerM ["Landroid/"] false mrefVirt
     tyDerived mdefAndroidW clsAndroid (by decide) (by decide) (by decide)
     (by decide),
   c2_conservative_failure.2.2.2 wC2acc callerM [] false mrefVirt
     tyDerived mdefAndroidW (by decide) rfl⟩

/-- C4: on a refinement rewrite, an invoke-interface opcode turns into
invoke-virtual exactly when the new target's owning class is not an
interface, incrementing num_invoke_interface_replaced; otherwise (and on
every invoke-virtual rewrite) the opcode is kept and
num_invoke_virtual_refined is incremented — exactly one of the two
counters per rewrite. -/
theorem c4_interface_replacement
    (w : World) (opts : Options) (method : DexMethodRef)
    (desuperify specializeRtype : Bool) (insn : IRInstruction)
    (stats : RefStats) (dom : Option DexType)
    (mref callee defMeth : DexMethodRef) (thisReg : Nat)
    (recvTy : DexType) (defCls : DexClass)
    (hm : insn.mref = some mref)
    (hres : w.resolveMethod mref (opcodeToSearch insn.opcode) method =
      some callee)
    (hthis : insn.srcs.head? = some thisReg)
    (hrecv : w.inferredRecvType insn thisReg = some recvTy)
    (hgimd : get_inferred_method_def w method opts.excludedExternals
      (w.isSupportLib method.cls) callee recvTy = some defMeth)
    (hcls : w.typeClass defMeth.cls = some defCls)
    (hne : mref ≠ defMeth)
    (hgate : defCls.isExternal = true →
      opts.refineToExternal = true ∧ w.minSdkHasMethod defMeth = true) :
    (insn.opcode = .invoke_interface →
      (defCls.isInterface = false →
        refine_callsite_step w opts method desuperify specializeRtype
          insn stats dom =
        some ({ insn with mref := some defMeth, opcode := .invoke_virtual },
              stats.incrInterfaceReplaced, dom)) ∧
      (defCls.isInterface = true →
        refine_callsite_step w opts method desuperify specializeRtype
          insn stats dom =
        some ({ insn with mref := some defMeth },
              stats.incrVirtualRefined, dom))) ∧
    (insn.opcode = .invoke_virtual →
      refine_callsite_step w opts method desuperify specializeRtype
        insn stats dom =
      some ({ insn with mref := some defMeth },
            stats.incrVirtualRefined, dom)) := by
  have main : ∀ hop : insn.opcode = .invoke_virtual ∨
      insn.opcode = .invoke_interface,
      refine_callsite_step w opts method desuperify specializeRtype
        insn stats dom =
      (if insn.opcode.isInvokeInterface = true ∧ defCls.isInterface = false
       then some ({ insn with mref := some defMeth, opcode := .invoke_virtual },
                  stats.incrInterfaceReplaced, dom)
       else some ({ insn with mref := some defMeth },
                  stats.incrVirtualRefined, dom)) := by
    intro hop
    have hsup : insn.opcode.isInvokeSuper = false := by
      rcases hop with h | h <;> simp [h, IROpcode.isInvokeSuper]
    have hdesup :
        (if desuperify then try_desuperify w method insn stats
         else some (insn, stats)) = some (insn, stats) := by
      cases desuperify
      · rfl
      · simpa using try_desuperify_skip w method insn stats hsup
    have hro : insn.opcode.isReturnObject = false := by
      rcases hop with h | h <;> simp [h, IROpcode.isReturnObject]
    have hinv :
        (insn.opcode.isInvokeVirtual || insn.opcode.isInvokeInterface) =
          true := by
      rcases hop with h | h <;>
        simp [h, IROpcode.isInvokeVirtual, IROpcode.isInvokeInterface]
    cases hext : defCls.isExternal
    · simp [refine_callsite_step, hdesup, hro, hinv, hm, hres, hthis,
        hrecv, hgimd, hcls, hne, hext]
    · obtain ⟨hR, hS⟩ := hgate hext
      simp [refine_callsite_step, hdesup, hro, hinv, hm, hres, hthis,
        hrecv, hgimd, hcls, hne, hext, hR, hS]
  refine ⟨?_, ?_⟩
  · intro hop
    refine ⟨?_, ?_⟩
    · intro hni
      rw [main (Or.inr hop)]
      simp [hop, IROpcode.isInvokeInterface, hni]
    · intro hi
      rw [main (Or.inr hop)]
      simp [hop, IROpcode.isInvokeInterface, hi]
  · intro hop
    rw [main (Or.inl hop)]
    simp [hop, IROpcode.isInvokeInterface]

def mrefIface : DexMethodRef := ⟨tyBase, "go", 3, false, false, false⟩

def mdefDerivedGo : DexMethodRef := ⟨tyDerived, "go", 3, true, false, false⟩

def insnIface : IRInstruction := ⟨.invoke_interface, some mrefIface, none, [0]⟩

def wC4 : World :=
  { wBase with
    typeClass := fun t =>
      if t = tyDerived then some clsDerived else none
    resolveMethod := fun r _ _ =>
      if r = mrefIface then some mdefDerivedGo else none
    resolveMethodOnCls := fun _ _ _ => some mdefDerivedGo
    inferredRecvType := fun _ _ => some tyDerived }

/-- Witness for C4: a concrete invoke-interface resolving to a
non-interface class is rewritten to invoke-virtual. -/
theorem c4_witness :
    refine_callsite_step wC4 optsBase callerM true false insnIface
      RefStats.empty none =
    some ({ insnIface with
              mref := some mdefDerivedGo
              opcode := .invoke_virtual },
          RefStats.empty.incrInterfaceReplaced, none) :=
  ((c4_interface_replacement wC4 optsBase callerM true false insnIface
      RefStats.empty none mrefIface mdefDerivedGo mdefDerivedGo 0
      tyDerived clsDerived rfl (by decide) rfl rfl (by decide) (by decide)
      (by decide) (by decide)).1 rfl).1 rfl

def mrefDirect : DexMethodRef := ⟨tyBase, "d", 4, false, false, false⟩

def mdefDirect : DexMethodRef := ⟨tyBase, "d", 4, true, false, false⟩

def insnDirect : IRInstruction := ⟨.invoke_direct, some mrefDirect, none, [0]⟩

def insnStat : IRInstruction := ⟨.invoke_static, some mrefDirect, none, []⟩

def wC5 : World :=
  { wBase with
    typeClass := fun t => if t = tyBase then some clsBase else none
    resolveMethod := fun r _ _ =>
      if r = mrefDirect then some mdefDirect else none }

/-- Counterexample for C5: an invoke-direct instruction whose reference
resolves to a distinct, internal, perfectly rewritable definition is left
completely untouched by resolve_refs — invoke-direct is not a case of the
dispatch switch, contradicting the claim that every dispatch kind
including direct is resolved. -/
theorem c5_counterexample :
    wC5.resolveMethod mrefDirect (opcodeToSearch insnDirect.opcode)
      callerM = some mdefDirect ∧
    mdefDirect ≠ mrefDirect ∧
    mdefDirect.isExternal = false ∧
    wC5.typeClass mdefDirect.cls = some clsBase ∧
    clsBase.isExternal = false ∧
    wC5.pub clsBase.ty = true ∧
    resolve_refs wC5 optsBase ⟨callerM, some [insnDirect]⟩ =
      some (wC5, ⟨callerM, some [insnDirect]⟩, RefStats.empty) :=
  ⟨by decide, by decide, by decide, by decide, by decide, by decide, rfl⟩

/-- C5 (amended): resolve_refs attempts method-reference resolution for
the four dispatch kinds of its switch — virtual, super, interface and
static — and rewrites when the resolution is non-null and distinct from
the current reference; invoke-direct instructions are not examined. -/
theorem c5_amended_dispatch
    (w : World) (opts : Options) (mthd : RMethod) (insn : IRInstruction)
    (mref mdef : DexMethodRef) (cls : DexClass)
    (hop : insn.opcode = .invoke_virtual ∨ insn.opcode = .invoke_super ∨
      insn.opcode = .invoke_interface ∨ insn.opcode = .invoke_static)
    (hcode : mthd.code = some [insn])
    (hm : insn.mref = some mref)
    (hres : w.resolveMethod mref (opcodeToSearch insn.opcode) mthd.ref =
      some mdef)
    (hne : mdef ≠ mref)
    (hext : mdef.isExternal = false)
    (hcls : w.typeClass mdef.cls = some cls)
    (hclsext : cls.isExternal = false)
    (hpub : w.pub cls.ty = true) :
    resolve_refs w opts mthd =
      some (w, { mthd with code := some [{ insn with mref := some mdef }] },
            RefStats.empty.incrMref) := by
  rcases hop with h | h | h | h <;>
    (rw [h] at hres;
     simp [resolve_refs, hcode, resolve_refs_loop, resolve_refs_step, h,
       resolve_method_refs, hm, hres, hne, hext, hcls, hclsext, hpub])

/-- Witness for the amended C5: a concrete invoke-static reference is
resolved and rewritten to its definition. -/
theorem c5_witness :
    resolve_refs wC5 optsBase ⟨callerM, some [insnStat]⟩ =
      some (wC5,
            ⟨callerM, some [{ insnStat with mref := some mdefDirect }]⟩,
            RefStats.empty.incrMref) :=
  c5_amended_dispatch wC5 optsBase ⟨callerM, some [insnStat]⟩ insnStat
    mrefDirect mdefDirect clsBase (Or.inr (Or.inr (Or.inr rfl))) rfl rfl
    (by decide) (by decide) (by decide) (by decide) (by decide) (by decide)

/-- C6: a field reference that is already a definition is skipped; when
hierarchy lookup yields a non-external definition distinct from the
current reference (whose owning class, by the data-model invariant for
non-external definitions, is a loaded non-external class), the field
operand is rewritten, num_fref_resolved goes up by one, and the owning
class ends up public. -/
theorem c6_field_resolution :
    (∀ (w : World) (insn : IRInstruction) (fieldSearch : FieldSearch)
       (stats : RefStats) (fref : DexFieldRef),
       insn.fref = some fref → fref.isDef = true →
       resolve_field_refs w insn fieldSearch stats =
         some (w, insn, stats)) ∧
    (∀ (w : World) (insn : IRInstruction) (fieldSearch : FieldSearch)
       (stats : RefStats) (fref realRef : DexFieldRef) (cls : DexClass),
       insn.fref = some fref →
       fref.isDef = false →
       w.resolveField fref fieldSearch = some realRef →
       realRef.isExternal = false →
       realRef ≠ fref →
       w.typeClass realRef.cls = some cls →
       cls.isExternal = false →
       resolve_field_refs w insn fieldSearch stats =
         some ((if w.pub cls.ty = true then w else setPublic w cls.ty),
               { insn with fref := some realRef }, stats.incrFref) ∧
       (if w.pub cls.ty = true then w
        else setPublic w cls.ty).pub cls.ty = true) := by
  constructor
  · intro w insn fieldSearch stats fref hf hdef
    simp [resolve_field_refs, hf, hdef]
  · intro w insn fieldSearch stats fref realRef cls hf hdef hres hext hne
      hcls hclsext
    have hcond : ¬(realRef.isExternal = true ∨ realRef = fref) := by
      simp [hext, hne]
    cases hpub : w.pub cls.ty
    · constructor
      · simp [resolve_field_refs, hf, hdef, hres, hcond, hcls, hpub,
          hclsext]
      · simp [hpub, setPublic]
    · constructor
      · simp [resolve_field_refs, hf, hdef, hres, hcond, hcls, hpub]
      · simp [hpub]

def frefX : DexFieldRef := ⟨tyBase, "x", tyBase, false, false⟩

def fdefX : DexFieldRef := ⟨tyDerived, "x", tyBase, true, false⟩

def insnIget : IRInstruction := ⟨.iget, none, some frefX, [0]⟩

def wC6 : World :=
  { wBase with
    typeClass := fun t => if t = tyDerived then some clsDerived else none
    resolveField := fun r _ => if r = frefX then some fdefX else none
    pub := fun t => if t = tyDerived then false else true }

/-- Witness for C6: a concrete iget is rebound to the definition found in
a subclass, and that class is promoted to public. -/
theorem c6_witness :
    resolve_field_refs wC6 insnIget FieldSearch.Instance RefStats.empty =
      some (setPublic wC6 tyDerived,
            { insnIget with fref := some fdefX },
            RefStats.empty.incrFref) ∧
    (setPublic wC6 tyDerived).pub tyDerived = true :=
  c6_field_resolution.2 wC6 insnIget FieldSearch.Instance RefStats.empty
    frefX fdefX clsDerived rfl rfl (by decide) (by decide) (by decide)
    (by decide) (by decide)

def mdefBaseGo : DexMethodRef := ⟨tyBase, "go", 3, true, false, false⟩

def wC7 : World :=
  { wBase with
    typeClass := fun t => if t = tyBase then some clsBase else none
    resolveMethodOnCls := fun _ _ _ => some mdefBaseGo
    resolveMethod := fun r _ _ =>
      if r = mrefIface then some mdefBaseGo else none
    inferredRecvType := fun _ _ => some tyBase }

def optsExclBase : Options := ⟨false, true, false, ["LBase;"]⟩

/-- Counterexample for C7: a resolved target that is NOT external but
whose fully qualified name starts with a configured excluded prefix is
not rejected — get_inferred_method_def returns it and the call site is
rewritten to it, contradicting the claim that every prefix-matching
target is rejected. -/
theorem c7_counterexample :
    is_excluded_external ["LBase;"] (showMethod mdefBaseGo) = true ∧
    get_inferred_method_def wC7 callerM ["LBase;"] false mrefIface tyBase =
      some mdefBaseGo ∧
    refine_callsite_step wC7 optsExclBase callerM true false insnIface
      RefStats.empty none =
    some ({ insnIface with
              mref := some mdefBaseGo
              opcode := .invoke_virtual },
          RefStats.empty.incrInterfaceReplaced, none) :=
  ⟨by decide, by decide, by decide⟩

/-- C7 (amended): the excluded_externals gate applies to external targets:
whenever the resolved target's owning class is external and its fully
qualified name starts with any configured prefix, get_inferred_method_def
returns none and the refinement loop leaves the call site unchanged.
Non-external targets are not subject to the prefix exclusion. -/
theorem c7_amended_excluded_gate
    (w : World) (caller : DexMethodRef) (excl : List String)
    (callee : DexMethodRef) (ty : DexType)
    (resolved : DexMethodRef) (rc : DexClass)
    (hres : w.resolveMethodOnCls (w.typeClass ty) callee.mname
      callee.proto = some resolved)
    (hcls : w.typeClass resolved.cls = some rc)
    (hext : rc.isExternal = true)
    (hexcl : is_excluded_external excl (showMethod resolved) = true) :
    (∀ isl : Bool,
      get_inferred_method_def w caller excl isl callee ty = none) ∧
    (∀ (opts : Options) (desuperify specializeRtype : Bool)
       (insn : IRInstruction) (stats : RefStats) (dom : Option DexType)
       (mref : DexMethodRef) (thisReg : Nat),
       opts.excludedExternals = excl →
       (insn.opcode = .invoke_virtual ∨ insn.opcode = .invoke_interface) →
       insn.mref = some mref →
       insn.srcs.head? = some thisReg →
       w.resolveMethod mref (opcodeToSearch insn.opcode) caller =
         some callee →
       w.inferredRecvType insn thisReg = some ty →
       refine_callsite_step w opts caller desuperify specializeRtype
         insn stats dom = some (insn, stats, dom)) := by
  have hnone : ∀ isl : Bool,
      get_inferred_method_def w caller excl isl callee ty = none := by
    intro isl
    cases hdef : resolved.isDef
    · simp [get_inferred_method_def, hres, hdef]
    · simp [get_inferred_method_def, hres, hdef, hcls, hext, hexcl]
  refine ⟨hnone, ?_⟩
  intro opts desuperify specializeRtype insn stats dom mref thisReg
    hEx hop hm hthis hresolve hrecv
  have hsup : insn.opcode.isInvokeSuper = false := by
    rcases hop with h | h <;> simp [h, IROpcode.isInvokeSuper]
  have hdesup :
      (if desuperify then try_desuperify w caller insn stats
       else some (insn, stats)) = some (insn, stats) := by
    cases desuperify
    · rfl
    · simpa using try_desuperify_skip w caller insn stats hsup
  have hro : insn.opcode.isReturnObject = false := by
    rcases hop with h | h <;> simp [h, IROpcode.isReturnObject]
  have hinv :
      (insn.opcode.isInvokeVirtual || insn.opcode.isInvokeInterface) =
        true := by
    rcases hop with h | h <;>
      simp [h, IROpcode.isInvokeVirtual, IROpcode.isInvokeInterface]
  have hgimd :
      get_inferred_method_def w caller opts.excludedExternals
        (w.isSupportLib caller.cls) callee ty = none := by
    rw [hEx]; exact hnone _
  simp [refine_callsite_step, hdesup, hro, hinv, hm, hresolve, hthis,
    hrecv, hgimd]

def wC7x : World :=
  { wBase with
    typeClass := fun t => if t = tyAndroid then some clsAndroid else none
    resolveMethodOnCls := fun _ _ _ => some mdefAndroidW
    resolveMethod := fun r _ _ =>
      if r = mrefIface then some mdefAndroidW else none
    inferredRecvType := fun _ _ => some tyDerived }

def optsExclAndroid : Options := ⟨false, true, false, ["Landroid/"]⟩

/-- Witness for the amended C7: a concrete external target matching the
prefix list is rejected and its call site kept intact. -/
theorem c7_witness :
    get_inferred_method_def wC7x callerM ["Landroid/"] false mdefAndroidW
      tyDerived = none ∧
    refine_callsite_step wC7x optsExclAndroid callerM true false insnIface
      RefStats.empty none = some (insnIface, RefStats.empty, none) :=
  ⟨(c7_amended_excluded_gate wC7x callerM ["Landroid/"] mdefAndroidW
      tyDerived mdefAndroidW clsAndroid (by decide) (by decide)
      (by decide) (by decide)).1 false,
   (c7_amended_excluded_gate wC7x callerM ["Landroid/"] mdefAndroidW
      tyDerived mdefAndroidW clsAndroid (by decide) (by decide)
      (by decide) (by decide)).2 optsExclAndroid true false insnIface
     RefStats.empty none mrefIface 0 rfl (Or.inr rfl) rfl rfl (by decide)
     rfl⟩

/-- Helper: with desuperify and specialize_rtype both disabled, a
refinement step never touches the rtype candidates, the invoke-super
counter or the rtype domain. -/
theorem refine_step_ff_preserves
    (w : World) (opts : Options) (method : DexMethodRef)
    (insn insn1 : IRInstruction) (stats stats1 : RefStats)
    (dom dom1 : Option DexType)
    (h : refine_callsite_step w opts method false false insn stats dom =
      some (insn1, stats1, dom1)) :
    stats1.rtype_candidates = stats.rtype_candidates ∧
    stats1.num_invoke_super_removed = stats.num_invoke_super_removed ∧
    dom1 = dom := by
  unfold refine_callsite_step at h
  simp only [Bool.false_eq_true, if_false, Bool.false_and] at h
  repeat' split at h
  all_goals try cases h
  all_goals
    simp [RefStats.incrInterfaceReplaced, RefStats.incrVirtualRefined]

/-- Helper: the loop version of refine_step_ff_preserves. -/
theorem refine_loop_ff_preserves
    (w : World) (opts : Options) (method : DexMethodRef)
    (insns : List IRInstruction) :
    ∀ (stats : RefStats) (dom : Option DexType)
      (insns1 : List IRInstruction) (stats1 : RefStats)
      (dom1 : Option DexType),
    refine_loop w opts method false false insns stats dom =
      some (insns1, stats1, dom1) →
    stats1.rtype_candidates = stats.rtype_candidates ∧
    stats1.num_invoke_super_removed = stats.num_invoke_super_removed ∧
    dom1 = dom := by
  induction insns with
  | nil =>
    intro stats dom insns1 stats1 dom1 h
    simp only [refine_loop, Option.some.injEq, Prod.mk.injEq] at h
    obtain ⟨-, h2, h3⟩ := h
    subst h2; subst h3
    exact ⟨rfl, rfl, rfl⟩
  | cons a as ih =>
    intro stats dom insns1 stats1 dom1 h
    cases hstep : refine_callsite_step w opts method false false a stats
        dom with
    | none => simp only [refine_loop, hstep] at h; cases h
    | some t =>
      obtain ⟨a1, s2, d2⟩ := t
      cases hrec : refine_loop w opts method false false as s2 d2 with
      | none => simp only [refine_loop, hstep, hrec] at h; cases h
      | some t2 =>
        obtain ⟨as1, s3, d3⟩ := t2
        simp only [refine_loop, hstep, hrec, Option.some.injEq,
          Prod.mk.injEq] at h
        obtain ⟨-, h2, h3⟩ := h
        subst h2; subst h3
        obtain ⟨p1, p2, p3⟩ := refine_step_ff_preserves w opts method a a1
          stats s2 dom d2 hstep
        obtain ⟨q1, q2, q3⟩ := ih s2 d2 as1 s3 d3 hrec
        subst p3; subst q3
        exact ⟨q1.trans p1, q2.trans p2, rfl⟩

/-- Helper: refine_virtual_callsites with both flags off collects no
rtype candidate and removes no invoke-super. -/
theorem refine_vc_ff
    (w : World) (opts : Options) (m m1 : RMethod) (st : RefStats)
    (h : refine_virtual_callsites w opts m false false = some (m1, st)) :
    st.rtype_candidates = [] ∧ st.num_invoke_super_removed = 0 := by
  cases hcode : m.code with
  | none =>
    simp only [refine_virtual_callsites, hcode, Option.some.injEq,
      Prod.mk.injEq] at h
    obtain ⟨-, h2⟩ := h
    subst h2
    exact ⟨rfl, rfl⟩
  | some insns =>
    cases hloop : refine_loop w opts m.ref false false insns
        RefStats.empty none with
    | none => simp only [refine_virtual_callsites, hcode, hloop] at h; cases h
    | some t =>
      obtain ⟨insns1, stats, dom⟩ := t
      obtain ⟨hc, hs, hd⟩ := refine_loop_ff_preserves w opts m.ref insns
        RefStats.empty none insns1 stats dom hloop
      simp only [refine_virtual_callsites, hcode, hloop,
        Option.some.injEq, Prod.mk.injEq] at h
      obtain ⟨-, h2⟩ := h
      subst h2
      subst hd
      constructor
      · simp [hc, collectSpecializableRtype, RefStats.empty]
      · simpa [RefStats.empty] using hs

/-- Helper: the second walk of run_pass inherits emptiness from
refine_vc_ff across the whole scope. -/
theorem run_pass_phase2_empty
    (w : World) (opts : Options) (ms : List RMethod) :
    ∀ (ms1 : List RMethod) (st : RefStats),
    run_pass_phase2 w opts ms = some (ms1, st) →
    st.rtype_candidates = [] ∧ st.num_invoke_super_removed = 0 := by
  induction ms with
  | nil =>
    intro ms1 st h
    simp only [run_pass_phase2, Option.some.injEq, Prod.mk.injEq] at h
    obtain ⟨-, h2⟩ := h
    subst h2
    exact ⟨rfl, rfl⟩
  | cons m rest ih =>
    intro ms1 st h
    cases hvc : refine_virtual_callsites w opts m false false with
    | none => simp only [run_pass_phase2, hvc] at h; cases h
    | some t =>
      obtain ⟨m1, st1⟩ := t
      cases hrec : run_pass_phase2 w opts rest with
      | none => simp only [run_pass_phase2, hvc, hrec] at h; cases h
      | some t2 =>
        obtain ⟨rest1, stR⟩ := t2
        simp only [run_pass_phase2, hvc, hrec, Option.some.injEq,
          Prod.mk.injEq] at h
        obtain ⟨-, h2⟩ := h
        subst h2
        obtain ⟨a1, a2⟩ := refine_vc_ff w opts m m1 st1 hvc
        obtain ⟨b1, b2⟩ := ih rest1 stR hrec
        constructor
        · simp [RefStats.add, a1, b1]
        · simp [RefStats.add, a2, b2]

/-- C8: with specialize_rtype enabled, run_pass collects candidates in a
first walk (resolve_refs then refine_virtual_callsites with the
configured flags), applies the signature specializations, and re-runs
virtual-call refinement over every method with desuperify = false and
specialize_rtype = false — so the second walk exists and, collection
being disabled, it produces no rtype candidate and removes no
invoke-super. -/
theorem c8_rerun_collection_disabled
    (w : World) (opts : Options)
    (spapply : List (DexMethodRef × DexType) → World → List RMethod →
               World × List RMethod)
    (scope : List RMethod) (w1 : World) (scope1 : List RMethod)
    (stats1 : RefStats) (second : Option (List RMethod × RefStats))
    (hsp : opts.specializeRtypeOpt = true)
    (h : run_pass w opts spapply scope =
      some (w1, scope1, stats1, second)) :
    ∃ (scope2 : List RMethod) (stats2 : RefStats),
      second = some (scope2, stats2) ∧
      run_pass_phase2 (spapply stats1.rtype_candidates w1 scope1).1 opts
        (spapply stats1.rtype_candidates w1 scope1).2 =
        some (scope2, stats2) ∧
      stats2.rtype_candidates = [] ∧
      stats2.num_invoke_super_removed = 0 := by
  cases hp1 : run_pass_phase1 opts w scope with
  | none => simp only [run_pass, hp1] at h; cases h
  | some t1 =>
    obtain ⟨wa, scopea, statsa⟩ := t1
    cases hp2 : run_pass_phase2
        (spapply statsa.rtype_candidates wa scopea).1 opts
        (spapply statsa.rtype_candidates wa scopea).2 with
    | none => simp [run_pass, hp1, hsp, hp2] at h
    | some t2 =>
      obtain ⟨scope2, stats2⟩ := t2
      simp only [run_pass, hp1, hsp, Bool.true_eq_false, if_false, hp2,
        Option.some.injEq, Prod.mk.injEq] at h
      obtain ⟨hw, hsc, hst, hsecond⟩ := h
      subst hw; subst hsc; subst hst
      subst hsecond
      refine ⟨scope2, stats2, rfl, hp2, ?_, ?_⟩
      · exact (run_pass_phase2_empty _ opts _ scope2 stats2 hp2).1
      · exact (run_pass_phase2_empty _ opts _ scope2 stats2 hp2).2

def optsC8 : Options := ⟨false, true, true, []⟩

def spapplyId :
    List (DexMethodRef × DexType) → World → List RMethod →
    World × List RMethod :=
  fun _ w ms => (w, ms)

def mEmpty : RMethod := ⟨callerM, none⟩

/-- Witness for C8: a concrete one-method scope goes through both walks;
the second walk exists and carries no candidates. -/
theorem c8_witness :
    optsC8.specializeRtypeOpt = true ∧
    ∃ (scope2 : List RMethod) (stats2 : RefStats),
      (some ([mEmpty], RefStats.empty) :
        Option (List RMethod × RefStats)) = some (scope2, stats2) ∧
      run_pass_phase2
        (spapplyId RefStats.empty.rtype_candidates wBase [mEmpty]).1 optsC8
        (spapplyId RefStats.empty.rtype_candidates wBase [mEmpty]).2 =
        some (scope2, stats2) ∧
      stats2.rtype_candidates = [] ∧
      stats2.num_invoke_super_removed = 0 :=
  ⟨rfl,
   c8_rerun_collection_disabled wBase optsC8 spapplyId [mEmpty] wBase
     [mEmpty] RefStats.empty (some ([mEmpty], RefStats.empty)) rfl rfl⟩

/-- C9: calling good, fail or what before run has completed hits the
assertion of check_completion, whose message names the method; after run
completes, what yields exactly "OK" when checking succeeded and the first
error's description otherwise, and good and fail yield complementary
booleans. -/
theorem c9_checker_lifecycle :
    (∀ c : IRTypeChecker, c.m_complete = false →
      c.good = Except.error
        ("The type checker did not run on method " ++ c.dexMethodName ++
         ".\n") ∧
      c.fail = Except.error
        ("The type checker did not run on method " ++ c.dexMethodName ++
         ".\n") ∧
      c.what = Except.error
        ("The type checker did not run on method " ++ c.dexMethodName ++
         ".\n")) ∧
    (∀ (c : IRTypeChecker) (firstError : Option String),
      c.m_complete = false →
      (c.run firstError).m_complete = true ∧
      (firstError = none →
        (c.run firstError).what = Except.ok "OK" ∧
        (c.run firstError).good = Except.ok true ∧
        (c.run firstError).fail = Except.ok false) ∧
      (∀ msg : String, firstError = some msg →
        (c.run firstError).what = Except.ok msg ∧
        (c.run firstError).good = Except.ok false ∧
        (c.run firstError).fail = Except.ok true)) ∧
    (∀ c : IRTypeChecker, c.m_complete = true →
      ∃ b : Bool, c.good = Except.ok b ∧ c.fail = Except.ok (!b)) := by
  refine ⟨?_, ?_, ?_⟩
  · intro c h
    refine ⟨?_, ?_, ?_⟩ <;>
      simp [IRTypeChecker.good, IRTypeChecker.fail, IRTypeChecker.what,
        IRTypeChecker.check_completion, Except.map, h]
  · intro c firstError h
    cases firstError with
    | none =>
      refine ⟨?_, ?_, ?_⟩
      · simp [IRTypeChecker.run, h]
      · intro _
        refine ⟨?_, ?_, ?_⟩ <;>
          simp [IRTypeChecker.run, IRTypeChecker.good, IRTypeChecker.fail,
            IRTypeChecker.what, IRTypeChecker.check_completion,
            Except.map, h]
      · intro msg hmsg
        cases hmsg
    | some m =>
      refine ⟨?_, ?_, ?_⟩
      · simp [IRTypeChecker.run, h]
      · intro hn
        cases hn
      · intro msg hmsg
        cases hmsg
        refine ⟨?_, ?_, ?_⟩ <;>
          simp [IRTypeChecker.run, IRTypeChecker.good, IRTypeChecker.fail,
            IRTypeChecker.what, IRTypeChecker.check_completion,
            Except.map, h]
  · intro c h
    refine ⟨c.m_good, ?_, ?_⟩ <;>
      simp [IRTypeChecker.good, IRTypeChecker.fail,
        IRTypeChecker.check_completion, Except.map, h]

def cPending : IRTypeChecker := ⟨"LCaller;.caller:()V", false, false, ""⟩

/-- Witness for C9: concrete pre-run assertion message, post-run outcomes
on success and on a first error, and good/fail complementarity. -/
theorem c9_witness :
    cPending.good = Except.error
      ("The type checker did not run on method " ++
       "LCaller;.caller:()V" ++ ".\n") ∧
    (cPending.run none).what = Except.ok "OK" ∧
    (cPending.run (some "type error at.")).what =
      Except.ok "type error at." ∧
    (cPending.run (some "type error at.")).fail = Except.ok true :=
  ⟨(c9_checker_lifecycle.1 cPending rfl).1,
   ((c9_checker_lifecycle.2.1 cPending none rfl).2.1 rfl).1,
   ((c9_checker_lifecycle.2.1 cPending (some "type error at.") rfl).2.2
      "type error at." rfl).1,
   ((c9_checker_lifecycle.2.1 cPending (some "type error at.") rfl).2.2
      "type error at." rfl).2.2⟩

/-- C10: in resolve_method_refs, once a distinct resolved definition has
passed the external gates, a null type_class result for its owning class
is dereferenced (by the redex_assert short-circuit and the is_public
call) — modelled as the crash outcome none — while the only genuine
bail-out at this point is a non-public external owning class. -/
theorem c10_null_owner_crash
    (w : World) (opts : Options) (caller : DexMethodRef)
    (insn : IRInstruction) (stats : RefStats) (mref mdef : DexMethodRef)
    (hm : insn.mref = some mref)
    (hres : w.resolveMethod mref (opcodeToSearch insn.opcode) caller =
      some mdef)
    (hne : mdef ≠ mref)
    (hgate : mdef.isExternal = true →
      opts.refineToExternal = true ∧ w.minSdkHasMethod mdef = true) :
    (w.typeClass mdef.cls = none →
      resolve_method_refs w opts caller insn stats = none) ∧
    (∀ cls : DexClass, w.typeClass mdef.cls = some cls →
      cls.isExternal = true → w.pub cls.ty = false →
      resolve_method_refs w opts caller insn stats =
        some (w, insn, stats)) := by
  constructor
  · intro hcls
    cases hext : mdef.isExternal
    · simp [resolve_method_refs, hm, hres, hne, hext, hcls]
    · obtain ⟨hR, hS⟩ := hgate hext
      simp [resolve_method_refs, hm, hres, hne, hext, hR, hS, hcls]
  · intro cls hcls hcext hpub
    cases hext : mdef.isExternal
    · simp [resolve_method_refs, hm, hres, hne, hext, hcls, hcext, hpub]
    · obtain ⟨hR, hS⟩ := hgate hext
      simp [resolve_method_refs, hm, hres, hne, hext, hR, hS, hcls,
        hcext, hpub]

def mdefBaseV : DexMethodRef := ⟨tyBase, "v", 1, true, false, false⟩

def wC10 : World :=
  { wBase with
    resolveMethod := fun r _ _ =>
      if r = mrefVirt then some mdefBaseV else none }

/-- Witness for C10: a concrete resolution whose owning class is not
loaded crashes resolve_method_refs. -/
theorem c10_witness :
    resolve_method_refs wC10 optsBase callerM insnVirt RefStats.empty =
      none :=
  (c10_null_owner_crash wC10 optsBase callerM insnVirt RefStats.empty
     mrefVirt mdefBaseV rfl (by decide) (by decide) (by decide)).1 rfl

end Redex

